import Mathlib

/-
Verification of the poll lifecycle and voting integrity engine of the
alx-poller repository.  The definitions below are a shallow embedding of the
server actions in `lib/actions/polls` ("use server" module) and of the SQL
schema: identifiers (uuids) are modelled as `Nat`, timestamps as `Int`,
the three relevant tables as lists of rows inside a `DB` record, and each
server action as a pure function `DB → ... → DB × Option String` returning
the updated database together with `none` on success or `some msg` with the
action's error message string.  Supabase's `.single()` row lookup is
modelled by `List.find?` (the columns filtered on are primary keys or
unique, so at most one row matches), a `PGRST116` "no rows" result by
`find? = none`, and row insertion by appending to the table list with a
fresh id drawn from a `nextId` counter (standing in for uuid generation).
-/

/-- A row of the `polls` table (columns the actions read or write). -/
structure Poll where
  id : Nat
  title : String
  description : Option String
  createdBy : Nat
  isActive : Bool
  isPublic : Bool
  expiresAt : Option Int
  updatedAt : Int
deriving DecidableEq

/-- A row of the `poll_options` table. -/
structure PollOption where
  id : Nat
  pollId : Nat
  optionText : String
  displayOrder : Nat
deriving DecidableEq

/-- A row of the `votes` table (columns the actions read or write). -/
structure Vote where
  id : Nat
  pollId : Nat
  optionId : Nat
  userId : Nat
deriving DecidableEq

/-- The relational store: the three tables plus a fresh-id counter that
models uuid generation for inserted rows. -/
structure DB where
  polls : List Poll
  options : List PollOption
  votes : List Vote
  nextId : Nat
deriving DecidableEq

/-- The form data accepted by `createPoll` and `updatePoll`
(`CreatePollFormData` in `types`). -/
structure CreatePollFormData where
  title : String
  description : Option String
  options : List String
  expiresAt : Option Int
  isPublic : Bool
deriving DecidableEq

/-- Whitespace characters removed by JavaScript `String.prototype.trim`
(the ones of practical relevance: space, tab, and line terminators). -/
def jsWhitespace (c : Char) : Bool :=
  c == ' ' || c == '\t' || c == '\n' || c == '\r' || c == '\x0b' || c == '\x0c'

/-- JavaScript `String.prototype.trim`: drop leading and trailing
whitespace. -/
def jsTrim (s : String) : String :=
  String.mk (((s.toList.dropWhile jsWhitespace).reverse.dropWhile jsWhitespace).reverse)

/-- JavaScript `Array.prototype.indexOf` on a string array: index of the
first strictly-equal element. -/
def jsIndexOf (l : List String) (a : String) : Nat :=
  l.findIdx (fun x => x == a)

/-- The deduplication step of `validatePollOptions`:
`arr.filter((option, index, arr) => arr.indexOf(option) === index)` keeps
an element exactly when it is the first occurrence of its value. -/
def jsDedup (l : List String) : List String :=
  (l.enum.filter (fun p => jsIndexOf l p.2 == p.1)).map Prod.snd

/-- The cleaning pipeline of `validatePollOptions`: trim every entry,
drop empty strings, then drop (case-sensitive) duplicates. -/
def cleanOptions (options : List String) : List String :=
  jsDedup ((options.map jsTrim).filter (fun o => decide (0 < o.length)))

/-- Result of `validatePollOptions` (the `{isValid, error?, validOptions?}`
object, as a typed sum). -/
inductive ValidationResult where
  | invalid (error : String)
  | valid (validOptions : List String)
deriving DecidableEq

/-- `validatePollOptions` from the poll actions module: reject raw lists of
fewer than 2 entries, then reject when fewer than 2 cleaned entries remain,
otherwise return the cleaned list. -/
def validatePollOptions (options : List String) : ValidationResult :=
  if options.length < 2 then
    .invalid "A poll must have at least 2 options"
  else
    let validOptions := cleanOptions options
    if validOptions.length < 2 then
      .invalid "A poll must have at least 2 unique, non-empty options"
    else
      .valid validOptions

/-- The expiration test of `voteOnPoll`:
`poll.expires_at && new Date(poll.expires_at) < new Date()` — expired when
`expires_at` is non-null and strictly before the current time. -/
def pollExpired (poll : Poll) (now : Int) : Bool :=
  match poll.expiresAt with
  | some e => decide (e < now)
  | none => false

/-- `voteOnPoll(pollId, optionId)` from the poll actions module.  `user` is
the result of `getAuthenticatedUser` (`none` when unauthenticated), `now`
the current time.  Checks run in source order: authentication, poll lookup,
active flag, expiration, option-belongs-to-poll, existing vote; then the
vote row is inserted. -/
def voteOnPoll (db : DB) (user : Option Nat) (pollId optionId : Nat) (now : Int) :
    DB × Option String :=
  match user with
  | none => (db, some "You must be logged in to vote")
  | some uid =>
    match db.polls.find? (fun p => p.id == pollId) with
    | none => (db, some "Poll not found")
    | some poll =>
      if !poll.isActive then
        (db, some "This poll is no longer active")
      else if pollExpired poll now then
        (db, some "This poll has expired")
      else
        match db.options.find? (fun o => o.id == optionId && o.pollId == pollId) with
        | none => (db, some "Invalid option")
        | some _ =>
          match db.votes.find? (fun v => v.pollId == pollId && v.userId == uid) with
          | some _ => (db, some "You have already voted on this poll")
          | none =>
            ({ db with
                votes := db.votes ++
                  [{ id := db.nextId, pollId := pollId, optionId := optionId, userId := uid }],
                nextId := db.nextId + 1 },
             none)

/-- `formData.description?.trim() || null`: trim the description, turning a
missing or whitespace-only value into SQL null. -/
def trimOrNone (s : Option String) : Option String :=
  match s with
  | some d => if jsTrim d == "" then none else some (jsTrim d)
  | none => none

/-- `createPoll(formData)` from the poll actions module.  `user` is the
result of `getAuthenticatedUser`, `now` the current time (the store fills
`updated_at`/`created_at` with it).  `optionsInsertFails` injects the store
failure of the `poll_options` bulk insert, the one partial-failure point the
action compensates for: on failure it deletes the just-created poll row and
reports an error. -/
def createPoll (db : DB) (user : Option Nat) (formData : CreatePollFormData)
    (now : Int) (optionsInsertFails : Bool) : DB × Option String :=
  match user with
  | none => (db, some "You must be logged in to create a poll")
  | some uid =>
    if jsTrim formData.title == "" then
      (db, some "Poll title is required")
    else
      match validatePollOptions formData.options with
      | .invalid e => (db, some e)
      | .valid validOptions =>
        let pollId := db.nextId
        let newPoll : Poll :=
          { id := pollId, title := jsTrim formData.title,
            description := trimOrNone formData.description, createdBy := uid,
            isActive := true, isPublic := formData.isPublic,
            expiresAt := formData.expiresAt, updatedAt := now }
        let db1 : DB := { db with polls := db.polls ++ [newPoll], nextId := db.nextId + 1 }
        if optionsInsertFails then
          ({ db1 with polls := db1.polls.filter (fun p => p.id != pollId) },
           some "Failed to create poll options. Please try again.")
        else
          let newOptions := validOptions.enum.map (fun p =>
            ({ id := db1.nextId + p.1, pollId := pollId, optionText := p.2,
               displayOrder := p.1 + 1 } : PollOption))
          ({ db1 with
              options := db1.options ++ newOptions,
              nextId := db1.nextId + validOptions.length },
           none)

/-- `verifyPollOwnership(supabase, pollId, userId)`: look the poll up by id
and require that its `created_by` equals the caller. -/
def verifyPollOwnership (db : DB) (pollId userId : Nat) : Except String Poll :=
  match db.polls.find? (fun p => p.id == pollId) with
  | none => .error "Poll not found"
  | some poll =>
    if poll.createdBy != userId then .error "You can only edit your own polls"
    else .ok poll

/-- One supabase `update({option_text}).eq("id", targetId)` statement on the
`poll_options` table. -/
def updOne (opts : List PollOption) (targetId : Nat) (text : String) : List PollOption :=
  opts.map (fun o => if o.id == targetId then { o with optionText := text } else o)

/-- The `for (let i = 0; i < validOptions.length; i++)` loop of
`updatePollOptions`: when index `i` has an existing option, update its text
in place by id; otherwise insert a fresh option with `display_order = i+1`. -/
def syncLoop (pollId : Nat) (existing : List PollOption) :
    DB → Nat → List String → DB
  | db, _, [] => db
  | db, i, text :: rest =>
    match existing[i]? with
    | some ex =>
        syncLoop pollId existing
          { db with options := updOne db.options ex.id text } (i + 1) rest
    | none =>
        syncLoop pollId existing
          { db with
              options := db.options ++
                [{ id := db.nextId, pollId := pollId, optionText := text,
                   displayOrder := i + 1 }],
              nextId := db.nextId + 1 } (i + 1) rest

/-- `updatePollOptions(supabase, pollId, validOptions)`: fetch the poll's
existing options, run the update/insert loop, then delete the existing
options beyond the new length when the new set is smaller. -/
def updatePollOptions (db : DB) (pollId : Nat) (validOptions : List String) : DB :=
  let existingOptions := db.options.filter (fun o => o.pollId == pollId)
  let db1 := syncLoop pollId existingOptions db 0 validOptions
  if validOptions.length < existingOptions.length then
    let optionsToDelete := (existingOptions.drop validOptions.length).map (fun o => o.id)
    { db1 with options := db1.options.filter (fun o => !optionsToDelete.contains o.id) }
  else db1

/-- `updatePoll(pollId, formData)`: authentication, ownership check, title
and option validation, then the poll metadata update followed by
`updatePollOptions`. -/
def updatePoll (db : DB) (user : Option Nat) (pollId : Nat)
    (formData : CreatePollFormData) (now : Int) : DB × Option String :=
  match user with
  | none => (db, some "You must be logged in to update a poll")
  | some uid =>
    match verifyPollOwnership db pollId uid with
    | .error e => (db, some e)
    | .ok _ =>
      if jsTrim formData.title == "" then
        (db, some "Poll title is required")
      else
        match validatePollOptions formData.options with
        | .invalid e => (db, some e)
        | .valid validOptions =>
          let db1 : DB :=
            { db with
                polls := db.polls.map (fun p =>
                  if p.id == pollId then
                    { p with
                      title := jsTrim formData.title,
                      description := trimOrNone formData.description,
                      expiresAt := formData.expiresAt,
                      isPublic := formData.isPublic, updatedAt := now }
                  else p) }
          (updatePollOptions db1 pollId validOptions, none)

/-- `deletePoll(pollId)`: authentication, ownership check, then the poll row
delete; the store's `ON DELETE CASCADE` removes the poll's options and
votes. -/
def deletePoll (db : DB) (user : Option Nat) (pollId : Nat) : DB × Option String :=
  match user with
  | none => (db, some "You must be logged in to delete a poll")
  | some uid =>
    match verifyPollOwnership db pollId uid with
    | .error e => (db, some e)
    | .ok _ =>
      ({ db with
          polls := db.polls.filter (fun p => p.id != pollId),
          options := db.options.filter (fun o => o.pollId != pollId),
          votes := db.votes.filter (fun v => v.pollId != pollId) },
       none)

/-- `getPollById(id)`: single-row lookup filtered on both `id` and
`is_active = true`; any lookup failure is reported as "Poll not found". -/
def getPollById (db : DB) (id : Nat) : Except String Poll :=
  match db.polls.find? (fun p => p.id == id && p.isActive) with
  | none => .error "Poll not found"
  | some poll => .ok poll

/-- `Map.get` of a JavaScript `Map<poll id, count>` modelled as an
association list in insertion order. -/
def mapGet (m : List (Nat × Nat)) (k : Nat) : Option Nat :=
  (m.find? (fun p => p.1 == k)).map Prod.snd

/-- `Map.set`: replace the value of an existing key in place, or append a
new entry. -/
def mapSet (m : List (Nat × Nat)) (k v : Nat) : List (Nat × Nat) :=
  if m.any (fun p => p.1 == k) then
    m.map (fun p => if p.1 == k then (k, v) else p)
  else m ++ [(k, v)]

/-- One iteration of the `votes?.forEach` aggregation of `getVoteCounts`:
`count = map.get(poll_id) || 0; map.set(poll_id, count + 1)`. -/
def countStep (m : List (Nat × Nat)) (v : Vote) : List (Nat × Nat) :=
  mapSet m v.pollId ((mapGet m v.pollId).getD 0 + 1)

/-- `getVoteCounts(supabase, pollIds)`: on a non-empty id list, one query
for the votes whose `poll_id` is in `pollIds`, then the in-memory
aggregation fold. -/
def getVoteCounts (db : DB) (pollIds : List Nat) : List (Nat × Nat) :=
  if pollIds.length == 0 then []
  else (db.votes.filter (fun v => pollIds.contains v.pollId)).foldl countStep []

-- Sanity checks.
/-! ### Specification-side descriptions of the option synchronization

The following definitions do not come from the source; they are the closed
form that `updatePollOptions` is proved to equal, mirroring the spec's
reading of the algorithm (update in place by position, append fresh
options, delete the tail). -/

/-- The pointwise effect of `applyPairs` on a single option. -/
def updFun (pairs : List (PollOption × String)) (o : PollOption) : PollOption :=
  pairs.foldl
    (fun a p => if a.id == p.1.id then { a with optionText := p.2 } else a) o

/-- An active, never-expiring poll owned by user 5. -/
def samplePoll1 : Poll :=
  { id := 1, title := "Favorite color?", description := none, createdBy := 5,
    isActive := true, isPublic := true, expiresAt := none, updatedAt := 0 }

/-- A second active poll, also owned by user 5. -/
def samplePoll2 : Poll :=
  { id := 2, title := "Best season?", description := none, createdBy := 5,
    isActive := true, isPublic := true, expiresAt := none, updatedAt := 0 }

/-- Two active polls with two options each and no votes yet. -/
def sampleDB : DB :=
  { polls := [samplePoll1, samplePoll2],
    options :=
      [{ id := 11, pollId := 1, optionText := "Red", displayOrder := 1 },
       { id := 12, pollId := 1, optionText := "Blue", displayOrder := 2 },
       { id := 21, pollId := 2, optionText := "Summer", displayOrder := 1 },
       { id := 22, pollId := 2, optionText := "Winter", displayOrder := 2 }],
    votes := [], nextId := 30 }

/-- A sample form whose options pass validation. -/
def sampleForm : CreatePollFormData :=
  { title := "Favorite color?", description := none,
    options := ["Red", "Blue"], expiresAt := none, isPublic := true }

/-- An active poll that expires at time 100. -/
def expiringPoll : Poll :=
  { id := 1, title := "Expiring", description := none, createdBy := 5,
    isActive := true, isPublic := true, expiresAt := some 100, updatedAt := 0 }

/-- A store holding only the expiring poll, with two options and no votes. -/
def expiringDB : DB :=
  { polls := [expiringPoll],
    options :=
      [{ id := 11, pollId := 1, optionText := "Red", displayOrder := 1 },
       { id := 12, pollId := 1, optionText := "Blue", displayOrder := 2 }],
    votes := [], nextId := 30 }

/-- An existing but deactivated poll. -/
def inactivePoll : Poll :=
  { id := 3, title := "Retired", description := none, createdBy := 5,
    isActive := false, isPublic := true, expiresAt := none, updatedAt := 0 }

/-- A store holding only the deactivated poll. -/
def inactiveDB : DB :=
  { polls := [inactivePoll], options := [], votes := [], nextId := 10 }

/-- A form whose options clean down to fewer than 2 entries. -/
def badForm : CreatePollFormData :=
  { title := "T", description := none, options := ["A", "", "A"],
    expiresAt := none, isPublic := true }

/-- The concrete store after user 7 successfully votes for option 11 on
poll 1. -/
def sampleDBAfterVote : DB := (voteOnPoll sampleDB (some 7) 1 11 0).1

-- Sanity checks of the cleaning pipeline on the spec's examples.
example :
    cleanOptions ["A", "a", "", "  ", "A"] = ["A", "a"] := by decide

example :
    validatePollOptions ["A", "", "A"] =
      .invalid "A poll must have at least 2 unique, non-empty options" := by decide

/-! ### C10: `getPollById` hides inactive polls -/

/-- Claim C10: `getPollById` returns the "Poll not found" error for every
poll whose `is_active` flag is false, even when the poll row exists: the
lookup filters on `is_active = true`, so an inactive poll is
indistinguishable from an absent one through this operation (second
conjunct). -/
theorem getPollById_filters_inactive (db : DB) (id : Nat) (poll : Poll)
    (hmem : poll ∈ db.polls) (hid : poll.id = id) (hinactive : poll.isActive = false)
    (hnodup : (db.polls.map Poll.id).Nodup) :
    getPollById db id = .error "Poll not found" ∧
    ∀ db' : DB, (∀ q ∈ db'.polls, q.id ≠ id) →
      getPollById db' id = .error "Poll not found" := by
  constructor
  · unfold getPollById
    have hnone : db.polls.find? (fun p => p.id == id && p.isActive) = none := by
      rw [List.find?_eq_none]
      intro q hq hpred
      simp only [Bool.and_eq_true, beq_iff_eq] at hpred
      obtain ⟨hqid, hqact⟩ := hpred
      have hq_eq : q = poll :=
        List.inj_on_of_nodup_map hnodup hq hmem (by rw [hqid, hid])
      rw [hq_eq, hinactive] at hqact
      exact Bool.false_ne_true hqact
    rw [hnone]
  · intro db' h
    unfold getPollById
    have hnone : db'.polls.find? (fun p => p.id == id && p.isActive) = none := by
      rw [List.find?_eq_none]
      intro q hq hpred
      simp only [Bool.and_eq_true, beq_iff_eq] at hpred
      exact h q hq hpred.1
    rw [hnone]

/-- C10 witness: the concrete inactive poll with id 3 exists yet is
reported as not found. -/
theorem getPollById_filters_inactive_witness :
    getPollById inactiveDB 3 = .error "Poll not found" :=
  (getPollById_filters_inactive inactiveDB 3 inactivePoll (by decide) rfl rfl
    (by decide)).1

/-! ### C8: non-owners cannot update or delete a poll -/

/-- Claim C8: for every caller whose identity differs from the poll's
`created_by`, `updatePoll` and `deletePoll` return the ownership error and
return the store completely unchanged (the returned state is the input
state, so the poll row, its options and its votes are untouched). -/
theorem nonOwner_update_delete_unchanged (db : DB) (uid pid : Nat)
    (fd : CreatePollFormData) (now : Int) (poll : Poll)
    (hfind : db.polls.find? (fun p => p.id == pid) = some poll)
    (howner : poll.createdBy ≠ uid) :
    updatePoll db (some uid) pid fd now =
      (db, some "You can only edit your own polls") ∧
    deletePoll db (some uid) pid =
      (db, some "You can only edit your own polls") := by
  have hown : verifyPollOwnership db pid uid =
      .error "You can only edit your own polls" := by
    unfold verifyPollOwnership
    rw [hfind]
    simp [howner]
  constructor
  · simp [updatePoll, hown]
  · simp [deletePoll, hown]

/-- C8 witness: user 7 can neither update nor delete user 5's poll, and the
store is returned unchanged. -/
theorem nonOwner_update_delete_unchanged_witness :
    updatePoll sampleDB (some 7) 1 sampleForm 0 =
      (sampleDB, some "You can only edit your own polls") ∧
    deletePoll sampleDB (some 7) 1 =
      (sampleDB, some "You can only edit your own polls") :=
  nonOwner_update_delete_unchanged sampleDB 7 1 sampleForm 0 samplePoll1 rfl
    (by decide)

/-! ### C4: `voteOnPoll` validation order -/

/-- Claim C4: `voteOnPoll` performs its checks in the fixed order
unauthenticated, poll not found, poll inactive, poll expired, invalid
option, already voted; each failing check short-circuits with its own error
before any later check runs (no conjunct constrains the data of later
checks, so e.g. an inactive and expired poll yields the inactive error). -/
theorem voteOnPoll_validation_order (db : DB) (pid oid : Nat) (now : Int) :
    voteOnPoll db none pid oid now = (db, some "You must be logged in to vote") ∧
    (∀ uid, db.polls.find? (fun p => p.id == pid) = none →
      voteOnPoll db (some uid) pid oid now = (db, some "Poll not found")) ∧
    (∀ uid poll, db.polls.find? (fun p => p.id == pid) = some poll →
      poll.isActive = false →
      voteOnPoll db (some uid) pid oid now =
        (db, some "This poll is no longer active")) ∧
    (∀ uid poll, db.polls.find? (fun p => p.id == pid) = some poll →
      poll.isActive = true → pollExpired poll now = true →
      voteOnPoll db (some uid) pid oid now = (db, some "This poll has expired")) ∧
    (∀ uid poll, db.polls.find? (fun p => p.id == pid) = some poll →
      poll.isActive = true → pollExpired poll now = false →
      db.options.find? (fun o => o.id == oid && o.pollId == pid) = none →
      voteOnPoll db (some uid) pid oid now = (db, some "Invalid option")) ∧
    (∀ uid poll opt v, db.polls.find? (fun p => p.id == pid) = some poll →
      poll.isActive = true → pollExpired poll now = false →
      db.options.find? (fun o => o.id == oid && o.pollId == pid) = some opt →
      db.votes.find? (fun w => w.pollId == pid && w.userId == uid) = some v →
      voteOnPoll db (some uid) pid oid now =
        (db, some "You have already voted on this poll")) := by
  refine ⟨rfl, ?_, ?_, ?_, ?_, ?_⟩
  · intro uid h
    unfold voteOnPoll
    rw [h]
  · intro uid poll h hact
    unfold voteOnPoll
    rw [h]
    simp [hact]
  · intro uid poll h hact hexp
    unfold voteOnPoll
    rw [h]
    simp [hact, hexp]
  · intro uid poll h hact hexp hopt
    unfold voteOnPoll
    rw [h]
    simp [hact, hexp, hopt]
  · intro uid poll opt v h hact hexp hopt hvote
    unfold voteOnPoll
    rw [h]
    simp [hact, hexp, hopt, hvote]

/-- C4 witness: on the store whose only poll is inactive (and also lacking
the requested option), the inactive error fires. -/
theorem voteOnPoll_validation_order_witness :
    voteOnPoll inactiveDB (some 7) 3 99 0 =
      (inactiveDB, some "This poll is no longer active") :=
  (voteOnPoll_validation_order inactiveDB 3 99 0).2.2.1 7 inactivePoll rfl rfl

/-! ### C5: expiration boundary -/

/-- The expiration test holds exactly when `expires_at` is non-null and
strictly before the current time. -/
theorem pollExpired_iff (poll : Poll) (now : Int) :
    pollExpired poll now = true ↔ ∃ e, poll.expiresAt = some e ∧ e < now := by
  unfold pollExpired
  cases h : poll.expiresAt with
  | none => simp
  | some e => simp

/-- C5 counterexample: for the poll whose `expiresAt` is time 100, a vote at
current time 100 — where `expiresAt` is non-null and not strictly greater
than the current time — succeeds instead of returning the expiration error,
because the code tests `expires_at < now` strictly. -/
theorem vote_at_expiry_instant_not_rejected :
    expiringPoll.expiresAt = some 100 ∧
    ¬ (100 : Int) < 100 ∧
    (voteOnPoll expiringDB (some 7) 1 11 100).2 = none ∧
    (voteOnPoll expiringDB (some 7) 1 11 100).2 ≠ some "This poll has expired" := by
  refine ⟨rfl, by decide, rfl, by decide⟩

/-- Claim C5 (amended): for an existing, active poll, `voteOnPoll` returns
the expiration error exactly when `expiresAt` is non-null and strictly less
than the current time; a vote at the exact instant `expiresAt = now` is
accepted by this check. -/
theorem voteOnPoll_expired_iff (db : DB) (uid pid oid : Nat) (now : Int) (poll : Poll)
    (hfind : db.polls.find? (fun p => p.id == pid) = some poll)
    (hactive : poll.isActive = true) :
    ((voteOnPoll db (some uid) pid oid now).2 = some "This poll has expired" ↔
      ∃ e, poll.expiresAt = some e ∧ e < now) := by
  rw [← pollExpired_iff poll now]
  unfold voteOnPoll
  rw [hfind]
  cases hexp : pollExpired poll now with
  | true => simp [hactive, hexp]
  | false =>
    simp only [hactive, Bool.not_true, Bool.false_eq_true, if_false, iff_false, hexp]
    cases h1 : db.options.find? (fun o => o.id == oid && o.pollId == pid) with
    | none => simp
    | some o =>
      cases h2 : db.votes.find? (fun w => w.pollId == pid && w.userId == uid) with
      | none => simp
      | some v => simp

/-- C5 amended-claim witness: for the poll expiring at time 100, a vote at
time 200 is reported as expired. -/
theorem voteOnPoll_expired_iff_witness :
    (voteOnPoll expiringDB (some 7) 1 11 200).2 = some "This poll has expired" :=
  (voteOnPoll_expired_iff expiringDB 7 1 11 200 expiringPoll rfl rfl).mpr
    ⟨100, rfl, by decide⟩

/-! ### C2: option validation -/

/-- Deduplication does not lengthen a list. -/
theorem jsDedup_length_le (l : List String) : (jsDedup l).length ≤ l.length := by
  unfold jsDedup
  calc ((l.enum.filter (fun p => jsIndexOf l p.2 == p.1)).map Prod.snd).length
      = (l.enum.filter (fun p => jsIndexOf l p.2 == p.1)).length :=
        List.length_map _ _
    _ ≤ l.enum.length := List.length_filter_le _ _
    _ = l.length := List.enum_length

/-- The cleaning pipeline does not lengthen the option list. -/
theorem cleanOptions_length_le (l : List String) :
    (cleanOptions l).length ≤ l.length := by
  unfold cleanOptions
  refine le_trans (jsDedup_length_le _) ?_
  calc ((l.map jsTrim).filter (fun o => decide (0 < o.length))).length
      ≤ (l.map jsTrim).length := List.length_filter_le _ _
    _ = l.length := List.length_map _ _

/-- Claim C2: an option list passes validation (in `createPoll` and
`updatePoll`, which share `validatePollOptions`) exactly when trimming,
empty-string removal and case-sensitive deduplication leave at least 2
entries.  When it does not, the failing validation produces one of the two
specific validation (invalid-input) messages, both actions return exactly
that message whenever validation is the check that fails (authenticated
caller, non-empty title, and for `updatePoll` a passing ownership check),
and both actions leave the store untouched for every caller. -/
theorem option_validation_iff_no_write (opts : List String) (db : DB)
    (user : Option Nat) (uid pid : Nat) (fd : CreatePollFormData) (now : Int)
    (fail : Bool) :
    ((∃ v, validatePollOptions opts = .valid v) ↔ 2 ≤ (cleanOptions opts).length) ∧
    ((cleanOptions fd.options).length < 2 →
      ∃ e, validatePollOptions fd.options = .invalid e ∧
        (e = "A poll must have at least 2 options" ∨
         e = "A poll must have at least 2 unique, non-empty options") ∧
        ((jsTrim fd.title == "") = false →
          createPoll db (some uid) fd now fail = (db, some e)) ∧
        ((jsTrim fd.title == "") = false →
          ∀ poll, db.polls.find? (fun p => p.id == pid) = some poll →
            poll.createdBy = uid →
            updatePoll db (some uid) pid fd now = (db, some e)) ∧
        (createPoll db user fd now fail).1 = db ∧
        (createPoll db user fd now fail).2.isSome = true ∧
        (updatePoll db user pid fd now).1 = db ∧
        (updatePoll db user pid fd now).2.isSome = true) := by
  have hinvalid : ∀ (l : List String), (cleanOptions l).length < 2 →
      ∀ v, validatePollOptions l ≠ .valid v := by
    intro l hlt v hv
    simp only [validatePollOptions] at hv
    by_cases h1 : l.length < 2
    · rw [if_pos h1] at hv
      exact ValidationResult.noConfusion hv
    · rw [if_neg h1, if_pos hlt] at hv
      exact ValidationResult.noConfusion hv
  constructor
  · constructor
    · rintro ⟨v, hv⟩
      by_contra hlt
      exact hinvalid opts (by omega) v hv
    · intro h2
      have h1 : ¬ opts.length < 2 := by
        have := cleanOptions_length_le opts
        omega
      refine ⟨cleanOptions opts, ?_⟩
      simp only [validatePollOptions]
      rw [if_neg h1, if_neg (by omega)]
  · intro hlt
    have hval : ∃ e, validatePollOptions fd.options = .invalid e ∧
        (e = "A poll must have at least 2 options" ∨
         e = "A poll must have at least 2 unique, non-empty options") := by
      by_cases h1 : fd.options.length < 2
      · refine ⟨"A poll must have at least 2 options", ?_, Or.inl rfl⟩
        simp only [validatePollOptions]
        rw [if_pos h1]
      · refine ⟨"A poll must have at least 2 unique, non-empty options", ?_,
          Or.inr rfl⟩
        simp only [validatePollOptions]
        rw [if_neg h1, if_pos hlt]
    obtain ⟨e, he, hdisj⟩ := hval
    refine ⟨e, he, hdisj, ?_, ?_, ?_, ?_, ?_, ?_⟩
    · intro htitle
      simp only [createPoll, htitle, Bool.false_eq_true, if_false, he]
    · intro htitle poll hfind hown
      have hok : verifyPollOwnership db pid uid = .ok poll := by
        unfold verifyPollOwnership
        rw [hfind]
        simp [hown]
      simp only [updatePoll, hok, htitle, Bool.false_eq_true, if_false, he]
    · cases user with
      | none => rfl
      | some u =>
        simp only [createPoll, he]
        split <;> rfl
    · cases user with
      | none => rfl
      | some u =>
        simp only [createPoll, he]
        split <;> rfl
    · cases user with
      | none => rfl
      | some u =>
        simp only [updatePoll, he]
        split
        · rfl
        · split <;> rfl
    · cases user with
      | none => rfl
      | some u =>
        simp only [updatePoll, he]
        split
        · rfl
        · split <;> rfl

/-- C2 witness: `["A","a","","  ","A"]` cleans to 2 entries and passes;
`["A","","A"]` cleans to 1 entry and both actions on the concrete store
return exactly the "2 unique, non-empty options" validation error with the
store unchanged (user 5 owns poll 1, so validation is the failing check). -/
theorem option_validation_iff_no_write_witness :
    (∃ v, validatePollOptions ["A", "a", "", "  ", "A"] = .valid v) ∧
    createPoll sampleDB (some 5) badForm 0 false =
      (sampleDB, some "A poll must have at least 2 unique, non-empty options") ∧
    updatePoll sampleDB (some 5) 1 badForm 0 =
      (sampleDB, some "A poll must have at least 2 unique, non-empty options") := by
  obtain ⟨e, he, _, hcreate, hupdate, _, _, _, _⟩ :=
    (option_validation_iff_no_write ["A", "a", "", "  ", "A"] sampleDB (some 5)
      5 1 badForm 0 false).2 (by decide)
  have he2 : e = "A poll must have at least 2 unique, non-empty options" := by
    have hv : validatePollOptions badForm.options =
        .invalid "A poll must have at least 2 unique, non-empty options" := by
      decide
    rw [hv] at he
    injection he with h
    exact h.symm
  subst he2
  exact ⟨(option_validation_iff_no_write ["A", "a", "", "  ", "A"] sampleDB (some 5)
      5 1 badForm 0 false).1.mpr (by decide),
    hcreate (by decide), hupdate (by decide) samplePoll1 rfl rfl⟩

/-! ### C7: `createPoll` compensating delete -/

/-- Claim C7: when the poll row insert succeeds but the options insert
fails, `createPoll` deletes the just-created poll row and returns an error
result: the returned store is the input store with only the fresh id
consumed, so no poll with zero options is left behind. -/
theorem createPoll_rollback_on_options_failure (db : DB) (uid : Nat)
    (fd : CreatePollFormData) (now : Int)
    (hfresh : ∀ p ∈ db.polls, p.id < db.nextId)
    (htitle : (jsTrim fd.title == "") = false)
    (hopts : 2 ≤ (cleanOptions fd.options).length) :
    createPoll db (some uid) fd now true =
      ({ db with nextId := db.nextId + 1 },
       some "Failed to create poll options. Please try again.") := by
  have h1 : ¬ fd.options.length < 2 := by
    have := cleanOptions_length_le fd.options
    omega
  have hval : validatePollOptions fd.options = .valid (cleanOptions fd.options) := by
    simp only [validatePollOptions]
    rw [if_neg h1, if_neg (by omega)]
  simp only [createPoll, htitle, hval, Bool.false_eq_true, if_false, if_true]
  have hkeep : db.polls.filter (fun p => p.id != db.nextId) = db.polls := by
    rw [List.filter_eq_self]
    intro p hp
    have := hfresh p hp
    simp only [bne_iff_ne, ne_eq]
    omega
  simp [List.filter_append, hkeep]

/-- C7 witness: injecting the options-insert failure on the concrete store
returns exactly the input store (plus the consumed id) and the error. -/
theorem createPoll_rollback_on_options_failure_witness :
    createPoll sampleDB (some 5) sampleForm 0 true =
      ({ sampleDB with nextId := 31 },
       some "Failed to create poll options. Please try again.") :=
  createPoll_rollback_on_options_failure sampleDB 5 sampleForm 0 (by decide)
    (by decide) (by decide)

/-! ### Helper lemmas shared by the voting claims -/

/-- Inversion of a successful `voteOnPoll`: every check passed, no prior
vote for `(pid, uid)` existed, and the result is the input store with
exactly the one new vote row appended. -/
theorem voteOnPoll_success_inv (db db' : DB) (uid pid oid : Nat) (now : Int)
    (hsucc : voteOnPoll db (some uid) pid oid now = (db', none)) :
    ∃ poll, db.polls.find? (fun p => p.id == pid) = some poll ∧
      poll.isActive = true ∧ pollExpired poll now = false ∧
      (db.options.find? (fun x => x.id == oid && x.pollId == pid)).isSome = true ∧
      db.votes.find? (fun w => w.pollId == pid && w.userId == uid) = none ∧
      db' = { db with
        votes := db.votes ++
          [{ id := db.nextId, pollId := pid, optionId := oid, userId := uid }],
        nextId := db.nextId + 1 } := by
  simp only [voteOnPoll] at hsucc
  split at hsucc
  · simp at hsucc
  · rename_i poll hfind
    split at hsucc
    · simp at hsucc
    · rename_i hact
      split at hsucc
      · simp at hsucc
      · rename_i hexp
        split at hsucc
        · simp at hsucc
        · rename_i opt hoptfind
          split at hsucc
          · simp at hsucc
          · rename_i hvotenone
            refine ⟨poll, hfind, ?_, ?_, ?_, hvotenone, ?_⟩
            · simpa using hact
            · simpa using hexp
            · rw [hoptfind]
              rfl
            · exact (congrArg Prod.fst hsucc).symm

/-- When the caller already has a vote row for the poll and every earlier
check passes, `voteOnPoll` returns the already-voted error and leaves the
store unchanged. -/
theorem voteOnPoll_already (db : DB) (uid pid oid : Nat) (now : Int) (poll : Poll)
    (v : Vote)
    (hfind : db.polls.find? (fun p => p.id == pid) = some poll)
    (hact : poll.isActive = true) (hexp : pollExpired poll now = false)
    (hopt : (db.options.find? (fun x => x.id == oid && x.pollId == pid)).isSome = true)
    (hvote : db.votes.find? (fun w => w.pollId == pid && w.userId == uid) = some v) :
    voteOnPoll db (some uid) pid oid now =
      (db, some "You have already voted on this poll") := by
  obtain ⟨opt, hopt'⟩ := Option.isSome_iff_exists.mp hopt
  unfold voteOnPoll
  rw [hfind]
  simp [hact, hexp, hopt', hvote]

/-- Every non-successful `voteOnPoll` call returns the input store
unchanged. -/
theorem voteOnPoll_error_frame (db db2 : DB) (user : Option Nat) (pid oid : Nat)
    (now : Int) (res : Option String)
    (heq : voteOnPoll db user pid oid now = (db2, res)) (hres : res ≠ none) :
    db2 = db := by
  cases user with
  | none =>
    simp only [voteOnPoll] at heq
    cases heq
    rfl
  | some uid =>
    simp only [voteOnPoll] at heq
    split at heq
    · cases heq
      rfl
    · split at heq
      · cases heq
        rfl
      · split at heq
        · cases heq
          rfl
        · split at heq
          · cases heq
            rfl
          · split at heq
            · cases heq
              rfl
            · cases heq
              exact absurd rfl hres

/-! ### C1: double-vote prevention -/

/-- Claim C1 (amended): after one successful `voteOnPoll(uid, pid, o)`, a
second `voteOnPoll(uid, pid, o')` for any option `o'` of poll `pid` returns
the already-voted error with the store unchanged, and the votes table
contains exactly one row for `(pid, uid)`.  (A second call with an option
id not belonging to `pid` instead returns the invalid-option error, which
fires before the duplicate-vote check; see the counterexample.) -/
theorem vote_then_vote_again (db db' : DB) (uid pid o o' : Nat) (now : Int)
    (hsucc : voteOnPoll db (some uid) pid o now = (db', none))
    (hopt : (db'.options.find? (fun x => x.id == o' && x.pollId == pid)).isSome = true) :
    voteOnPoll db' (some uid) pid o' now =
      (db', some "You have already voted on this poll") ∧
    (db'.votes.filter (fun v => v.pollId == pid && v.userId == uid)).length = 1 := by
  obtain ⟨poll, hfind, hact, hexp, _, hvnone, hdb'⟩ :=
    voteOnPoll_success_inv db db' uid pid o now hsucc
  subst hdb'
  constructor
  · refine voteOnPoll_already _ uid pid o' now poll
      { id := db.nextId, pollId := pid, optionId := o, userId := uid }
      hfind hact hexp hopt ?_
    show (db.votes ++
      [({ id := db.nextId, pollId := pid, optionId := o, userId := uid } : Vote)]).find?
        (fun w => w.pollId == pid && w.userId == uid) = _
    rw [List.find?_append, hvnone]
    simp
  · show ((db.votes ++
      [({ id := db.nextId, pollId := pid, optionId := o, userId := uid } : Vote)]).filter
        (fun v => v.pollId == pid && v.userId == uid)).length = 1
    rw [List.filter_append,
      List.filter_eq_nil_iff.mpr (by
        intro v hv
        exact List.find?_eq_none.mp hvnone v hv)]
    simp

/-- C1 counterexample: after user 7 successfully votes on poll 1, a second
call for the same poll with option 21 — an option of poll 2 — returns the
invalid-option error, not the already-voted error the claim demands for
"any option o'". -/
theorem vote_again_invalid_option_counterexample :
    (voteOnPoll sampleDB (some 7) 1 11 0).2 = none ∧
    (voteOnPoll sampleDBAfterVote (some 7) 1 21 0).2 = some "Invalid option" ∧
    (voteOnPoll sampleDBAfterVote (some 7) 1 21 0).2 ≠
      some "You have already voted on this poll" := by
  refine ⟨rfl, rfl, by decide⟩

/-- C1 witness: on the concrete store, re-voting with the poll's other
option 12 yields the already-voted error and one stored vote row. -/
theorem vote_then_vote_again_witness :
    voteOnPoll sampleDBAfterVote (some 7) 1 12 0 =
      (sampleDBAfterVote, some "You have already voted on this poll") ∧
    (sampleDBAfterVote.votes.filter
      (fun v => v.pollId == 1 && v.userId == 7)).length = 1 :=
  vote_then_vote_again sampleDB sampleDBAfterVote 7 1 11 12 0 rfl rfl

/-! ### C3: cross-poll option rejection -/

/-- Claim C3 (amended): when no option with id `oid` belongs to poll `pid`
(in particular when the option exists but belongs to a different poll),
`voteOnPoll` never succeeds and never changes the store, and when the poll
exists, is active and unexpired the returned error is exactly the
invalid-option one.  (When an earlier check fails, its own error — e.g.
"Poll not found" — is returned instead; see the counterexample.) -/
theorem vote_cross_poll_option_rejected (db : DB) (uid pid oid : Nat) (now : Int)
    (hcross : ∀ o ∈ db.options, o.id = oid → o.pollId ≠ pid) :
    ((voteOnPoll db (some uid) pid oid now).2 ≠ none ∧
     (voteOnPoll db (some uid) pid oid now).1 = db) ∧
    (∀ poll, db.polls.find? (fun p => p.id == pid) = some poll →
      poll.isActive = true → pollExpired poll now = false →
      voteOnPoll db (some uid) pid oid now = (db, some "Invalid option")) := by
  have hoptnone : db.options.find? (fun o => o.id == oid && o.pollId == pid) = none := by
    rw [List.find?_eq_none]
    intro o ho hpred
    simp only [Bool.and_eq_true, beq_iff_eq] at hpred
    exact hcross o ho hpred.1 hpred.2
  have key : ∀ db2 res, voteOnPoll db (some uid) pid oid now = (db2, res) →
      res = none → False := by
    intro db2 res heq hres
    subst hres
    obtain ⟨poll, _, _, _, hoptsome, _, _⟩ :=
      voteOnPoll_success_inv db db2 uid pid oid now heq
    rw [hoptnone] at hoptsome
    exact Bool.false_ne_true hoptsome
  constructor
  · rcases hv : voteOnPoll db (some uid) pid oid now with ⟨db2, res⟩
    refine ⟨?_, ?_⟩
    · intro h
      exact key db2 res hv h
    · exact voteOnPoll_error_frame db db2 (some uid) pid oid now res hv
        (fun hn => key db2 res hv hn)
  · intro poll hfind hact hexp
    unfold voteOnPoll
    rw [hfind]
    simp [hact, hexp, hoptnone]

/-- C3 counterexample: option 21 exists and belongs to poll 2, user 7 is
authenticated, but voting for it on the absent poll id 3 returns
"Poll not found" rather than the invalid-option error the claim demands. -/
theorem vote_cross_poll_counterexample :
    (∀ o ∈ sampleDB.options, o.id = 21 → o.pollId = 2) ∧
    voteOnPoll sampleDB (some 7) 3 21 0 = (sampleDB, some "Poll not found") ∧
    (voteOnPoll sampleDB (some 7) 3 21 0).2 ≠ some "Invalid option" := by
  refine ⟨by decide, rfl, by decide⟩

/-- C3 witness: voting on the existing active poll 1 with poll 2's option
21 yields exactly the invalid-option error and the unchanged store. -/
theorem vote_cross_poll_option_rejected_witness :
    voteOnPoll sampleDB (some 7) 1 21 0 = (sampleDB, some "Invalid option") :=
  (vote_cross_poll_option_rejected sampleDB 7 1 21 0 (by decide)).2 samplePoll1
    rfl rfl rfl

/-! ### C9: vote-count aggregation -/

/-- Association-list lookup steps through a cons cell. -/
theorem mapGet_cons (x : Nat × Nat) (m : List (Nat × Nat)) (k : Nat) :
    mapGet (x :: m) k = if x.1 = k then some x.2 else mapGet m k := by
  unfold mapGet
  by_cases h : x.1 = k
  · rw [List.find?_cons_of_pos _ (by simp [h])]
    simp [h]
  · rw [List.find?_cons_of_neg _ (by simp [h])]
    simp [h]

/-- Overwriting key `k` in place does not affect lookups of other keys. -/
theorem mapGet_overwrite_other (m : List (Nat × Nat)) (k v k' : Nat) (hk : k' ≠ k) :
    mapGet (m.map (fun p => if p.1 == k then (k, v) else p)) k' = mapGet m k' := by
  induction m with
  | nil => rfl
  | cons x xs ih =>
    by_cases hx : x.1 = k
    · rw [List.map_cons, if_pos (by simp [hx])]
      rw [mapGet_cons, mapGet_cons, if_neg (by simpa using fun h => hk h.symm),
        if_neg (by rw [hx]; exact fun h => hk h.symm)]
      exact ih
    · rw [List.map_cons, if_neg (by simp [hx])]
      rw [mapGet_cons, mapGet_cons]
      by_cases hxk : x.1 = k'
      · rw [if_pos hxk, if_pos hxk]
      · rw [if_neg hxk, if_neg hxk]
        exact ih

/-- Overwriting key `k` in place makes its lookup return the new value when
the key was present. -/
theorem mapGet_overwrite_self (m : List (Nat × Nat)) (k v : Nat) :
    mapGet (m.map (fun p => if p.1 == k then (k, v) else p)) k =
      if m.any (fun p => p.1 == k) = true then some v else none := by
  induction m with
  | nil => rfl
  | cons x xs ih =>
    by_cases hx : x.1 = k
    · rw [List.map_cons, if_pos (by simp [hx])]
      rw [mapGet_cons, if_pos rfl]
      rw [if_pos (by simp [List.any_cons, hx])]
    · rw [List.map_cons, if_neg (by simp [hx])]
      rw [mapGet_cons, if_neg hx, ih]
      have : ((x :: xs).any (fun p => p.1 == k)) = (xs.any (fun p => p.1 == k)) := by
        simp [List.any_cons, hx]
      rw [this]

/-- The `Map.set`/`Map.get` exchange law for the JavaScript map model. -/
theorem mapGet_mapSet (m : List (Nat × Nat)) (k v k' : Nat) :
    mapGet (mapSet m k v) k' = if k' = k then some v else mapGet m k' := by
  unfold mapSet
  by_cases hany : m.any (fun p => p.1 == k) = true
  · rw [if_pos hany]
    by_cases hk : k' = k
    · subst hk
      rw [mapGet_overwrite_self, if_pos hany, if_pos rfl]
    · rw [mapGet_overwrite_other m k v k' hk, if_neg hk]
  · rw [if_neg hany]
    have hmnone : m.find? (fun p => p.1 == k) = none := by
      rw [List.find?_eq_none]
      intro x hx hpred
      exact hany (List.any_eq_true.mpr ⟨x, hx, hpred⟩)
    by_cases hk : k' = k
    · subst hk
      unfold mapGet
      rw [List.find?_append, hmnone]
      simp
    · unfold mapGet
      rw [List.find?_append]
      cases hfm : m.find? (fun p => p.1 == k') with
      | some x =>
        rw [if_neg hk]
        simp [Option.orElse]
      | none =>
        rw [if_neg hk]
        rw [List.find?_cons_of_neg _
          (by simp only [beq_iff_eq]; exact fun h => hk h.symm)]
        simp [Option.orElse]

/-- The aggregation fold counts, per key, exactly the votes carrying that
poll id. -/
theorem foldl_countStep_count (vs : List Vote) :
    ∀ (m : List (Nat × Nat)) (k : Nat),
    (mapGet (vs.foldl countStep m) k).getD 0 =
      (mapGet m k).getD 0 + (vs.filter (fun v => v.pollId == k)).length := by
  induction vs with
  | nil =>
    intro m k
    simp
  | cons v vs ih =>
    intro m k
    rw [List.foldl_cons, ih]
    unfold countStep
    rw [mapGet_mapSet, List.filter_cons]
    by_cases hk : k = v.pollId
    · subst hk
      rw [if_pos rfl, if_pos (by simp)]
      simp only [Option.getD_some, List.length_cons]
      omega
    · rw [if_neg hk, if_neg (by simp only [beq_iff_eq]; exact fun h => hk h.symm)]

/-- One aggregation step keeps every entry keyed by a requested poll id
with a positive count, provided the new vote is for a requested poll. -/
theorem countStep_preserves (pollIds : List Nat) (m : List (Nat × Nat)) (v : Vote)
    (hm : ∀ e ∈ m, e.1 ∈ pollIds ∧ 0 < e.2) (hv : v.pollId ∈ pollIds) :
    ∀ e ∈ countStep m v, e.1 ∈ pollIds ∧ 0 < e.2 := by
  intro e he
  unfold countStep mapSet at he
  by_cases hany : m.any (fun p => p.1 == v.pollId) = true
  · rw [if_pos hany] at he
    obtain ⟨x, hx, hxe⟩ := List.mem_map.mp he
    by_cases hxk : x.1 = v.pollId
    · rw [if_pos (by simp [hxk])] at hxe
      subst hxe
      exact ⟨hv, by omega⟩
    · rw [if_neg (by simp [hxk])] at hxe
      subst hxe
      exact hm x hx
  · rw [if_neg hany] at he
    rcases List.mem_append.mp he with h | h
    · exact hm e h
    · have : e = (v.pollId, (mapGet m v.pollId).getD 0 + 1) := by simpa using h
      subst this
      exact ⟨hv, by omega⟩

/-- Every entry produced by the whole aggregation fold is keyed by a
requested poll id and has a positive count. -/
theorem foldl_countStep_entries (pollIds : List Nat) (vs : List Vote) :
    ∀ (m : List (Nat × Nat)),
    (∀ e ∈ m, e.1 ∈ pollIds ∧ 0 < e.2) →
    (∀ v ∈ vs, v.pollId ∈ pollIds) →
    ∀ e ∈ vs.foldl countStep m, e.1 ∈ pollIds ∧ 0 < e.2 := by
  induction vs with
  | nil =>
    intro m hm _ e he
    exact hm e he
  | cons v vs ih =>
    intro m hm hvs e he
    rw [List.foldl_cons] at he
    exact ih (countStep m v)
      (countStep_preserves pollIds m v hm (hvs v (by simp)))
      (fun w hw => hvs w (by simp [hw])) e he

/-- C9 counterexample: for the requested poll id 1, which has no votes, the
map returned by `getVoteCounts` has no entry at all — not an entry of 0 as
the claim demands. -/
theorem getVoteCounts_missing_zero_entry :
    getVoteCounts sampleDB [1] = [] ∧
    mapGet (getVoteCounts sampleDB [1]) 1 = none ∧
    mapGet (getVoteCounts sampleDB [1]) 1 ≠ some 0 := by
  refine ⟨rfl, rfl, by decide⟩

/-- Claim C9 (amended): `getVoteCounts` aggregates the single filtered read
of the votes table into a map in which every requested poll id, looked up
with the `|| 0` default its callers use, yields exactly its number of vote
rows; every entry present is keyed by a requested poll id and has a
positive count, so requested ids with no votes are simply absent instead of
carrying an explicit 0. -/
theorem getVoteCounts_spec (db : DB) (pollIds : List Nat) :
    (∀ pid ∈ pollIds, (mapGet (getVoteCounts db pollIds) pid).getD 0 =
        (db.votes.filter (fun v => v.pollId == pid)).length) ∧
    (∀ e ∈ getVoteCounts db pollIds, e.1 ∈ pollIds ∧ 0 < e.2) := by
  constructor
  · intro pid hpid
    have hne : (pollIds.length == 0) = false := by
      cases pollIds with
      | nil => cases hpid
      | cons q qs => rfl
    unfold getVoteCounts
    rw [hne]
    simp only [Bool.false_eq_true, if_false]
    rw [foldl_countStep_count]
    have hff : (db.votes.filter (fun v => pollIds.contains v.pollId)).filter
        (fun v => v.pollId == pid) = db.votes.filter (fun v => v.pollId == pid) := by
      rw [List.filter_filter]
      apply List.filter_congr
      intro v hv
      cases hvp : (v.pollId == pid) with
      | false => simp
      | true =>
        have hv_eq : v.pollId = pid := by simpa using hvp
        simp [hv_eq, hpid]
    rw [hff]
    simp [mapGet]
  · intro e he
    unfold getVoteCounts at he
    split at he
    · simp at he
    · exact foldl_countStep_entries pollIds _ [] (by intro x hx; cases hx)
        (fun w hw => by simpa using (List.mem_filter.mp hw).2) e he

/-- C9 witness: on the store where user 7 has voted once on poll 1, the
defaulted lookups report 1 vote for poll 1 and 0 for poll 2, matching the
row counts. -/
theorem getVoteCounts_spec_witness :
    ((mapGet (getVoteCounts sampleDBAfterVote [1, 2]) 1).getD 0 =
      (sampleDBAfterVote.votes.filter (fun v => v.pollId == 1)).length) ∧
    ((mapGet (getVoteCounts sampleDBAfterVote [1, 2]) 2).getD 0 =
      (sampleDBAfterVote.votes.filter (fun v => v.pollId == 2)).length) :=
  ⟨(getVoteCounts_spec sampleDBAfterVote [1, 2]).1 1 (by decide),
   (getVoteCounts_spec sampleDBAfterVote [1, 2]).1 2 (by decide)⟩

/-! ### C6: option synchronization -/

/-- The pointwise update changes only the option text. -/
theorem updFun_preserves (pairs : List (PollOption × String)) :
    ∀ o : PollOption, (updFun pairs o).id = o.id ∧
      (updFun pairs o).pollId = o.pollId ∧
      (updFun pairs o).displayOrder = o.displayOrder := by
  induction pairs with
  | nil => exact fun o => ⟨rfl, rfl, rfl⟩
  | cons p ps ih =>
    intro o
    have hstep : updFun (p :: ps) o =
        updFun ps (if (o.id == p.1.id) = true then { o with optionText := p.2 } else o) :=
      rfl
    rw [hstep]
    obtain ⟨h1, h2, h3⟩ :=
      ih (if (o.id == p.1.id) = true then { o with optionText := p.2 } else o)
    rw [h1, h2, h3]
    split <;> exact ⟨rfl, rfl, rfl⟩

